import Mathlib

/-
  Verification of the HealthPathMobile vitals core.

  Shallow embedding of `src/services/vitalsService.ts` (status evaluator,
  recency formatter, vitals repository), the dashboard card construction of
  `src/app/(tabs)/vitals.tsx`, and the post-parse extraction cleaning of the
  AI service (`extractVitalsFromDocument`).

  JavaScript numbers are modelled as rationals (ℚ).  Consequences, noted at
  each use site: `isNaN` is constantly false on ℚ, and the JavaScript
  truthiness test `!v` on a possibly-absent numeric value holds exactly when
  the value is absent (`undefined`, modelled `none`) or equal to `0`.
-/

namespace HealthPath

/-- The clinical status tiers `'normal' | 'alert' | 'critical'` returned by
the status evaluator in `src/services/vitalsService.ts`. -/
inductive Status where
  | normal
  | alert
  | critical
deriving DecidableEq, Repr

/-- Embedding of `getVitalStatus` (`src/services/vitalsService.ts`, lines
151-191).  `type` is the free-form type string; `value1` the primary reading;
`value2` the optional secondary reading (diastolic pressure).  The source's
leading `if (isNaN(value1)) return 'normal'` is constantly false on ℚ and so
is omitted; the blood-pressure guard `if (!value2 || isNaN(value2))` holds
exactly when `value2` is absent or `0`. -/
def getVitalStatus (type : String) (value1 : ℚ) (value2 : Option ℚ) : Status :=
  match type with
  | "bloodPressure" =>
      match value2 with
      | none => Status.normal
      | some v2 =>
          if v2 = 0 then Status.normal
          else if value1 < 90 ∨ v2 < 60 then Status.alert
          else if 140 ≤ value1 ∨ 90 ≤ v2 then Status.critical
          else if 121 ≤ value1 ∨ 81 ≤ v2 then Status.alert
          else Status.normal
  | "bloodSugar" =>
      if value1 < 70 then Status.alert
      else if 126 ≤ value1 then Status.critical
      else if 100 ≤ value1 then Status.alert
      else Status.normal
  | "heartRate" =>
      if value1 < 60 ∨ 100 < value1 then Status.alert else Status.normal
  | "pulseRate" =>
      if value1 < 60 ∨ 100 < value1 then Status.alert else Status.normal
  | "oxygenSaturation" =>
      if value1 < 92 then Status.critical
      else if value1 < 95 then Status.alert
      else Status.normal
  | "temperature" =>
      if value1 < 35 then Status.alert
      else if 38 ≤ value1 then Status.critical
      else if value1 > 37.2 then Status.alert
      else Status.normal
  | _ => Status.normal

/-- Unfolding lemma for the blood-pressure branch of `getVitalStatus`. -/
lemma getVitalStatus_bloodPressure (value1 : ℚ) (value2 : Option ℚ) :
    getVitalStatus ("bloodPressure") value1 value2 =
      match value2 with
      | none => Status.normal
      | some v2 =>
          if v2 = 0 then Status.normal
          else if value1 < 90 ∨ v2 < 60 then Status.alert
          else if 140 ≤ value1 ∨ 90 ≤ v2 then Status.critical
          else if 121 ≤ value1 ∨ 81 ≤ v2 then Status.alert
          else Status.normal := rfl

/-- Unfolding lemma for the temperature branch of `getVitalStatus`. -/
lemma getVitalStatus_temperature (value1 : ℚ) (value2 : Option ℚ) :
    getVitalStatus ("temperature") value1 value2 =
      (if value1 < 35 then Status.alert
       else if 38 ≤ value1 then Status.critical
       else if value1 > 37.2 then Status.alert
       else Status.normal) := rfl

/-- C1 counterexample: the pair (150, 50) satisfies s ≥ 140, yet the
evaluator returns `alert`, not `critical`, because the hypotensive check
`diastolic < 60` is evaluated first. -/
theorem bp_critical_claim_cex :
    (140 ≤ (150 : ℚ) ∨ 90 ≤ (50 : ℚ)) ∧
      getVitalStatus ("bloodPressure") 150 (some 50) = Status.alert ∧
      getVitalStatus ("bloodPressure") 150 (some 50) ≠ Status.critical := by
  decide

/-- C1 (amended): for a blood-pressure pair (s, d) with s ≥ 140 or d ≥ 90,
the evaluator returns `critical` provided the pair is not hypotensive
(s ≥ 90 and d ≥ 60): the hypotensive tier precedes the critical tier. -/
theorem bp_high_is_critical (s d : ℚ) (hhigh : 140 ≤ s ∨ 90 ≤ d)
    (hs : 90 ≤ s) (hd : 60 ≤ d) :
    getVitalStatus ("bloodPressure") s (some d) = Status.critical := by
  rw [getVitalStatus_bloodPressure]
  have hd0 : ¬ d = 0 := by intro h; rw [h] at hd; norm_num at hd
  have hlow : ¬ (s < 90 ∨ d < 60) := by push_neg; exact ⟨hs, hd⟩
  simp only [hd0, if_false, hlow, hhigh, if_true]

/-- Witness for `bp_high_is_critical` at the concrete pair (150, 95). -/
theorem bp_high_is_critical_witness :
    (140 ≤ (150 : ℚ) ∨ 90 ≤ (95 : ℚ)) ∧ 90 ≤ (150 : ℚ) ∧ 60 ≤ (95 : ℚ) ∧
      getVitalStatus ("bloodPressure") 150 (some 95) = Status.critical :=
  ⟨by norm_num, by norm_num, by norm_num,
    bp_high_is_critical 150 95 (by norm_num) (by norm_num) (by norm_num)⟩

/-- C9: a diastolic reading of exactly 0 is falsy in JavaScript, so the guard
`if (!value2 || isNaN(value2)) return 'normal'` treats it like a missing
secondary value: the result is `normal` for every systolic value, even though
0 < 60 would otherwise be hypotensive. -/
theorem bp_zero_diastolic_normal (s : ℚ) :
    getVitalStatus ("bloodPressure") s (some 0) = Status.normal := by
  rw [getVitalStatus_bloodPressure]
  simp

/-- C5: the temperature tiering.  `critical` iff t ≥ 38; `alert` iff t < 35
or (35 ≤ t < 38 and t > 37.2); `normal` otherwise; checked in addition at the
boundary values 34.9, 35, 37.2, 37.3, 37.9, 38, 38.1. -/
theorem temperature_tiering :
    (∀ t : ℚ, getVitalStatus ("temperature") t none = Status.critical ↔ 38 ≤ t) ∧
    (∀ t : ℚ, getVitalStatus ("temperature") t none = Status.alert ↔
      (t < 35 ∨ (35 ≤ t ∧ t < 38 ∧ 37.2 < t))) ∧
    (∀ t : ℚ, getVitalStatus ("temperature") t none = Status.normal ↔
      (¬ 38 ≤ t ∧ ¬ (t < 35 ∨ (35 ≤ t ∧ t < 38 ∧ 37.2 < t)))) ∧
    getVitalStatus ("temperature") 34.9 none = Status.alert ∧
    getVitalStatus ("temperature") 35 none = Status.normal ∧
    getVitalStatus ("temperature") 37.2 none = Status.normal ∧
    getVitalStatus ("temperature") 37.3 none = Status.alert ∧
    getVitalStatus ("temperature") 37.9 none = Status.alert ∧
    getVitalStatus ("temperature") 38 none = Status.critical ∧
    getVitalStatus ("temperature") 38.1 none = Status.critical := by
  refine ⟨?_, ?_, ?_, ?_, ?_, ?_, ?_, ?_, ?_, ?_⟩
  · intro t
    rw [getVitalStatus_temperature]
    split_ifs with h1 h2 h3
    · exact iff_of_false (by simp) (by intro h; linarith)
    · exact iff_of_true rfl h2
    · exact iff_of_false (by simp) h2
    · exact iff_of_false (by simp) h2
  · intro t
    rw [getVitalStatus_temperature]
    split_ifs with h1 h2 h3
    · exact iff_of_true rfl (Or.inl h1)
    · refine iff_of_false (by simp) ?_
      rintro (h | ⟨ha, hb, hc⟩)
      · exact h1 h
      · linarith
    · exact iff_of_true rfl (Or.inr ⟨by linarith, by linarith, h3⟩)
    · refine iff_of_false (by simp) ?_
      rintro (h | ⟨ha, hb, hc⟩)
      · exact h1 h
      · exact h3 hc
  · intro t
    rw [getVitalStatus_temperature]
    split_ifs with h1 h2 h3
    · refine iff_of_false (by simp) ?_
      rintro ⟨ha, hb⟩
      exact hb (Or.inl h1)
    · refine iff_of_false (by simp) ?_
      rintro ⟨ha, hb⟩
      exact ha h2
    · refine iff_of_false (by simp) ?_
      rintro ⟨ha, hb⟩
      exact hb (Or.inr ⟨by linarith, by linarith, h3⟩)
    · refine iff_of_true rfl ⟨h2, ?_⟩
      rintro (h | ⟨ha, hb, hc⟩)
      · exact h1 h
      · exact h3 hc
  · rw [getVitalStatus_temperature]; norm_num
  · rw [getVitalStatus_temperature]; norm_num
  · rw [getVitalStatus_temperature]; norm_num
  · rw [getVitalStatus_temperature]; norm_num
  · rw [getVitalStatus_temperature]; norm_num
  · rw [getVitalStatus_temperature]; norm_num
  · rw [getVitalStatus_temperature]; norm_num

/-! Section: Recency formatter (`timeSince`, `src/services/vitalsService.ts` lines 194-207)

Instants are millisecond epoch timestamps, modelled as integers.  The call
time `new Date().getTime()` is passed explicitly as `nowMs`.  The formatter
is split into the bucket selection (`timeSinceBucket`) and the string
rendering (`renderTimeBucket`); `timeSince` is their composition and returns
exactly the source's strings. -/

/-- `Math.floor((new Date().getTime() - date.getTime()) / 1000)`. -/
def secondsSince (nowMs dateMs : ℤ) : ℤ := ⌊((nowMs - dateMs : ℤ) : ℚ) / 1000⌋

/-- The five time buckets of `timeSince`, each carrying the floored
quotient, plus the fall-through case. -/
inductive TimeBucket where
  | years (n : ℤ)
  | months (n : ℤ)
  | days (n : ℤ)
  | hours (n : ℤ)
  | minutes (n : ℤ)
  | justNow
deriving DecidableEq, Repr

/-- The cascade of `interval > 1` tests of `timeSince`, in source order:
years (31536000 s), months (2592000 s), days (86400 s), hours (3600 s),
minutes (60 s), falling through to `justNow`. -/
def timeSinceBucket (nowMs dateMs : ℤ) : TimeBucket :=
  let seconds := secondsSince nowMs dateMs
  if 1 < (seconds : ℚ) / 31536000 then TimeBucket.years ⌊(seconds : ℚ) / 31536000⌋
  else if 1 < (seconds : ℚ) / 2592000 then TimeBucket.months ⌊(seconds : ℚ) / 2592000⌋
  else if 1 < (seconds : ℚ) / 86400 then TimeBucket.days ⌊(seconds : ℚ) / 86400⌋
  else if 1 < (seconds : ℚ) / 3600 then TimeBucket.hours ⌊(seconds : ℚ) / 3600⌋
  else if 1 < (seconds : ℚ) / 60 then TimeBucket.minutes ⌊(seconds : ℚ) / 60⌋
  else TimeBucket.justNow

/-- The return strings of `timeSince`: `Math.floor(interval) + " ... ago"`,
or the literal `"Just now"`. -/
def renderTimeBucket : TimeBucket → String
  | TimeBucket.years n => toString n ++ " years ago"
  | TimeBucket.months n => toString n ++ " months ago"
  | TimeBucket.days n => toString n ++ " days ago"
  | TimeBucket.hours n => toString n ++ " hours ago"
  | TimeBucket.minutes n => toString n ++ " minutes ago"
  | TimeBucket.justNow => "Just now"

/-- Embedding of `timeSince` (`src/services/vitalsService.ts` lines
194-207): bucket selection followed by rendering. -/
def timeSince (nowMs dateMs : ℤ) : String :=
  renderTimeBucket (timeSinceBucket nowMs dateMs)

/-- The years condition `interval > 1` as a strict integer comparison. -/
lemma one_lt_div_31536000 (s : ℤ) : (1 < (s : ℚ) / 31536000) ↔ 31536000 < s := by
  rw [one_lt_div (by norm_num)]
  exact_mod_cast Iff.rfl

/-- The months condition `interval > 1` as a strict integer comparison. -/
lemma one_lt_div_2592000 (s : ℤ) : (1 < (s : ℚ) / 2592000) ↔ 2592000 < s := by
  rw [one_lt_div (by norm_num)]
  exact_mod_cast Iff.rfl

/-- The days condition `interval > 1` as a strict integer comparison. -/
lemma one_lt_div_86400 (s : ℤ) : (1 < (s : ℚ) / 86400) ↔ 86400 < s := by
  rw [one_lt_div (by norm_num)]
  exact_mod_cast Iff.rfl

/-- The hours condition `interval > 1` as a strict integer comparison. -/
lemma one_lt_div_3600 (s : ℤ) : (1 < (s : ℚ) / 3600) ↔ 3600 < s := by
  rw [one_lt_div (by norm_num)]
  exact_mod_cast Iff.rfl

/-- The minutes condition `interval > 1` as a strict integer comparison. -/
lemma one_lt_div_60 (s : ℤ) : (1 < (s : ℚ) / 60) ↔ 60 < s := by
  rw [one_lt_div (by norm_num)]
  exact_mod_cast Iff.rfl

/-- C3 counterexample: an instant 90 seconds old is less than 120 seconds
old, yet `timeSince` returns `"1 minutes ago"`, not `"Just now"`: the
minutes bucket fires as soon as the quotient exceeds 1, i.e. beyond 60
elapsed seconds. -/
theorem timeSince_90s_cex :
    (0 : ℤ) ≤ 200000 - 110000 ∧ (200000 - 110000 : ℤ) < 120000 ∧
      timeSince 200000 110000 = "1 minutes ago" ∧
      timeSince 200000 110000 ≠ "Just now" := by
  refine ⟨by norm_num, by norm_num, ?_, ?_⟩ <;>
    norm_num [timeSince, timeSinceBucket, secondsSince, renderTimeBucket] <;>
    decide

/-- C3 (amended): for every past instant strictly less than 61 seconds old
at call time (so that the floored elapsed-seconds count is at most 60),
`timeSince` returns the literal string `"Just now"`: no bucket's quotient
exceeds 1. -/
theorem timeSince_just_now (nowMs dateMs : ℤ) (hpast : 0 ≤ nowMs - dateMs)
    (hrecent : nowMs - dateMs < 61000) :
    timeSince nowMs dateMs = "Just now" := by
  have hsec : secondsSince nowMs dateMs ≤ 60 := by
    have hlt : secondsSince nowMs dateMs < 61 := by
      rw [secondsSince, Int.floor_lt]
      rw [div_lt_iff₀ (by norm_num)]
      have hx : ((nowMs - dateMs : ℤ) : ℚ) < 61000 := by exact_mod_cast hrecent
      push_cast at hx ⊢
      linarith
    omega
  rw [timeSince, timeSinceBucket]
  rw [if_neg, if_neg, if_neg, if_neg, if_neg]
  · rfl
  all_goals rw [not_lt, div_le_one (by norm_num)]
  all_goals exact_mod_cast le_trans hsec (by norm_num)

/-- Witness for `timeSince_just_now` at a 45-second-old instant. -/
theorem timeSince_just_now_witness :
    (0 : ℤ) ≤ 50000 - 5000 ∧ (50000 - 5000 : ℤ) < 61000 ∧
      timeSince 50000 5000 = "Just now" :=
  ⟨by norm_num, by norm_num,
    timeSince_just_now 50000 5000 (by norm_num) (by norm_num)⟩

/-- C10: for an instant at or after the call time the elapsed-seconds count
is non-positive, every bucket's `> 1` test fails, and `timeSince` returns
`"Just now"` without error. -/
theorem timeSince_future (nowMs dateMs : ℤ) (h : nowMs ≤ dateMs) :
    timeSince nowMs dateMs = "Just now" := by
  have hsec : secondsSince nowMs dateMs ≤ 0 := by
    rw [secondsSince]
    have hnum : ((nowMs - dateMs : ℤ) : ℚ) ≤ 0 := by
      have hq : (nowMs : ℚ) ≤ (dateMs : ℚ) := by exact_mod_cast h
      push_cast
      linarith
    have hdiv : ((nowMs - dateMs : ℤ) : ℚ) / 1000 ≤ 0 :=
      div_nonpos_of_nonpos_of_nonneg hnum (by norm_num)
    calc ⌊((nowMs - dateMs : ℤ) : ℚ) / 1000⌋ ≤ ⌊(0 : ℚ)⌋ := Int.floor_le_floor hdiv
    _ = 0 := by norm_num
  rw [timeSince, timeSinceBucket]
  rw [if_neg, if_neg, if_neg, if_neg, if_neg]
  · rfl
  all_goals rw [not_lt, div_le_one (by norm_num)]
  all_goals exact_mod_cast le_trans hsec (by norm_num)

/-- Witness for `timeSince_future` at an instant 5 seconds in the future. -/
theorem timeSince_future_witness :
    (1000 : ℤ) ≤ 6000 ∧ timeSince 1000 6000 = "Just now" :=
  ⟨by norm_num, timeSince_future 1000 6000 (by norm_num)⟩

/-- The bucket ordering of the claim:
years > months > days > hours > minutes > "Just now". -/
def bucketRank : TimeBucket → ℕ
  | TimeBucket.justNow => 0
  | TimeBucket.minutes _ => 1
  | TimeBucket.hours _ => 2
  | TimeBucket.days _ => 3
  | TimeBucket.months _ => 4
  | TimeBucket.years _ => 5

/-- The bucket rank as a step function of the elapsed-seconds count. -/
def secsRank (s : ℤ) : ℕ :=
  if 31536000 < s then 5
  else if 2592000 < s then 4
  else if 86400 < s then 3
  else if 3600 < s then 2
  else if 60 < s then 1
  else 0

/-- The rank of the selected bucket is determined by the elapsed-seconds
count through the threshold cascade. -/
lemma bucketRank_timeSinceBucket (nowMs dateMs : ℤ) :
    bucketRank (timeSinceBucket nowMs dateMs) = secsRank (secondsSince nowMs dateMs) := by
  rw [timeSinceBucket, secsRank]
  simp only [one_lt_div_31536000, one_lt_div_2592000, one_lt_div_86400,
    one_lt_div_3600, one_lt_div_60]
  split_ifs <;> rfl

/-- `secsRank` is monotone. -/
lemma secsRank_mono (a b : ℤ) (h : a ≤ b) : secsRank a ≤ secsRank b := by
  rw [secsRank, secsRank]
  split_ifs <;> omega

/-- C7: `timeSince` is monotone in the age of its argument: with a fixed
call time, an earlier past instant lands in a bucket of greater or equal
rank (years > months > days > hours > minutes > "Just now") than a later
one. -/
theorem timeSince_bucket_monotone (nowMs p1 p2 : ℤ) (h12 : p1 < p2)
    (h2 : p2 < nowMs) :
    bucketRank (timeSinceBucket nowMs p2) ≤ bucketRank (timeSinceBucket nowMs p1) := by
  rw [bucketRank_timeSinceBucket, bucketRank_timeSinceBucket]
  apply secsRank_mono
  apply Int.floor_le_floor
  have h12q : (p1 : ℚ) ≤ (p2 : ℚ) := by exact_mod_cast le_of_lt h12
  apply div_le_div_of_nonneg_right ?_ (by norm_num)
  push_cast
  linarith

/-- Witness for `timeSince_bucket_monotone`: a 2-hour-old instant versus a
2-minute-old instant. -/
theorem timeSince_bucket_monotone_witness :
    (0 : ℤ) < 7080000 ∧ (7080000 : ℤ) < 7200000 ∧
      bucketRank (timeSinceBucket 7200000 7080000) ≤
        bucketRank (timeSinceBucket 7200000 0) :=
  ⟨by norm_num, by norm_num,
    timeSince_bucket_monotone 7200000 0 7080000 (by norm_num) (by norm_num)⟩

/-! Section: Vitals repository (`vitalsService`, `src/services/vitalsService.ts`)

`Partial<VitalRecord>` is modelled with every field optional; numeric fields
are rationals.  The Firestore `latestVitals` collection keyed by user id is a
function from keys to optional stored documents.  Firestore effects are made
explicit: a write produces the new store, a read takes the backend's result
(`Except` for a failed read). -/

/-- `Partial<VitalRecord>` (`src/types/vitals.ts`): every field optional.
`none` models an absent key / `undefined`. -/
structure PartialVital where
  id : Option String := none
  userId : Option String := none
  date : Option String := none
  bloodPressureSystolic : Option ℚ := none
  bloodPressureDiastolic : Option ℚ := none
  bloodSugarFasting : Option ℚ := none
  bloodSugarPostMeal : Option ℚ := none
  heartRate : Option ℚ := none
  pulseRate : Option ℚ := none
  temperature : Option ℚ := none
  oxygenSaturation : Option ℚ := none
  respirationRate : Option ℚ := none
  weightKg : Option ℚ := none
  heightCm : Option ℚ := none
  bmi : Option ℚ := none
  steps : Option ℚ := none
  activeCalories : Option ℚ := none
  sleepHours : Option ℚ := none
  sleepMinutes : Option ℚ := none
  readinessScore : Option ℚ := none
  stressLevel : Option ℚ := none
  notes : Option String := none
  source : Option String := none
deriving DecidableEq, Repr

/-- A document stored in the `latestVitals` collection (or appended to a
user's history): the spread of the caller's data with `userId`, `date` and
`source` always filled in by `updateLatestVitals`/`addVitalToHistory`. -/
structure VitalDoc where
  userId : String
  date : String
  source : String
  bloodPressureSystolic : Option ℚ := none
  bloodPressureDiastolic : Option ℚ := none
  bloodSugarFasting : Option ℚ := none
  bloodSugarPostMeal : Option ℚ := none
  heartRate : Option ℚ := none
  pulseRate : Option ℚ := none
  temperature : Option ℚ := none
  oxygenSaturation : Option ℚ := none
  respirationRate : Option ℚ := none
  weightKg : Option ℚ := none
  heightCm : Option ℚ := none
  bmi : Option ℚ := none
  steps : Option ℚ := none
  activeCalories : Option ℚ := none
  sleepHours : Option ℚ := none
  sleepMinutes : Option ℚ := none
  readinessScore : Option ℚ := none
  stressLevel : Option ℚ := none
  notes : Option String := none
deriving DecidableEq, Repr

/-- The `latestVitals` collection: one optional document per user-id key. -/
def Store : Type := String → Option VitalDoc

/-- JavaScript `v || fallback` on an optional string: `undefined` and the
empty string are falsy. -/
def jsStrOr (v : Option String) (fallback : String) : String :=
  match v with
  | some s => if s = "" then fallback else s
  | none => fallback

/-- The document written by `updateLatestVitals`/`addVitalToHistory`:
`{ ...data, userId, date: data.date || new Date().toISOString(),
source: data.source || 'manual' }` with the call time's ISO string passed
explicitly as `nowIso`. -/
def docOfData (userId : String) (data : PartialVital) (nowIso : String) : VitalDoc :=
  { userId := userId
    date := jsStrOr data.date nowIso
    source := jsStrOr data.source ("manual")
    bloodPressureSystolic := data.bloodPressureSystolic
    bloodPressureDiastolic := data.bloodPressureDiastolic
    bloodSugarFasting := data.bloodSugarFasting
    bloodSugarPostMeal := data.bloodSugarPostMeal
    heartRate := data.heartRate
    pulseRate := data.pulseRate
    temperature := data.temperature
    oxygenSaturation := data.oxygenSaturation
    respirationRate := data.respirationRate
    weightKg := data.weightKg
    heightCm := data.heightCm
    bmi := data.bmi
    steps := data.steps
    activeCalories := data.activeCalories
    sleepHours := data.sleepHours
    sleepMinutes := data.sleepMinutes
    readinessScore := data.readinessScore
    stressLevel := data.stressLevel
    notes := data.notes }

/-- Embedding of `vitalsService.updateLatestVitals` (lines 25-42): a
`setDoc` with `merge: false` at the document keyed by `userId` — a full
replace — returning the new store and the function's return value
(`userId`). -/
def updateLatestVitals (userId : String) (data : PartialVital) (nowIso : String)
    (store : Store) : Store × String :=
  (fun k => if k = userId then some (docOfData userId data nowIso) else store k,
    userId)

/-- The `Partial<VitalRecord>` built by `getLatestVitals` from an existing
snapshot: `{ id: docSnap.id, ...docSnap.data() }`, where the document id is
the user id. -/
def recordOfDoc (docId : String) (d : VitalDoc) : PartialVital :=
  { id := some docId
    userId := some d.userId
    date := some d.date
    source := some d.source
    bloodPressureSystolic := d.bloodPressureSystolic
    bloodPressureDiastolic := d.bloodPressureDiastolic
    bloodSugarFasting := d.bloodSugarFasting
    bloodSugarPostMeal := d.bloodSugarPostMeal
    heartRate := d.heartRate
    pulseRate := d.pulseRate
    temperature := d.temperature
    oxygenSaturation := d.oxygenSaturation
    respirationRate := d.respirationRate
    weightKg := d.weightKg
    heightCm := d.heightCm
    bmi := d.bmi
    steps := d.steps
    activeCalories := d.activeCalories
    sleepHours := d.sleepHours
    sleepMinutes := d.sleepMinutes
    readinessScore := d.readinessScore
    stressLevel := d.stressLevel
    notes := d.notes }

/-- The empty record shape `{}` returned by `getLatestVitals` when the
snapshot is absent or the read fails. -/
def emptyRecord : PartialVital := {}

/-- Embedding of `vitalsService.getLatestVitals` (lines 71-88).  The
backend `getDoc` result is passed explicitly: `Except.error` is a failed
read, `Except.ok none` a missing document.  The function's own result is
`Except`-valued so that propagation of an error would be expressible; the
source's catch-all returns `{}` instead of rethrowing, so every branch is
`Except.ok`. -/
def getLatestVitals (userId : String) (backend : Except String (Option VitalDoc)) :
    Except String PartialVital :=
  match backend with
  | Except.ok (some d) => Except.ok (recordOfDoc userId d)
  | Except.ok none => Except.ok emptyRecord
  | Except.error _ => Except.ok emptyRecord

/-- C2 counterexample: a failed backend read is not propagated —
`getLatestVitals` swallows it into the empty record shape, returning
normally, exactly as it does for a missing snapshot. -/
theorem getLatestVitals_error_cex :
    getLatestVitals ("u1") (Except.error ("network down")) = Except.ok emptyRecord ∧
      getLatestVitals ("u1") (Except.error ("network down")) ≠
        Except.error ("network down") := by
  constructor
  · rfl
  · intro h
    cases h

/-- C2 (amended): `getLatestVitals` returns the empty record shape (not an
error) when no snapshot exists, and when the backend read itself fails it
likewise swallows the error into the empty record shape — the lenient
contract, the same as the history/range reads. -/
theorem getLatestVitals_lenient :
    (∀ uid : String, getLatestVitals uid (Except.ok none) = Except.ok emptyRecord) ∧
    (∀ (uid err : String),
      getLatestVitals uid (Except.error err) = Except.ok emptyRecord) :=
  ⟨fun _ => rfl, fun _ _ => rfl⟩

/-- C6: writing the same payload twice (with any call times) leaves the
store exactly as a single write does, and the snapshot written at a key is
entirely independent of the store's previous contents: `setDoc` with
`merge: false` is a full replace, not an accumulating merge. -/
theorem updateLatestVitals_idempotent (u : String) (data : PartialVital)
    (now now' : String) (s : Store) :
    (updateLatestVitals u data now ((updateLatestVitals u data now' s).1)).1 =
        (updateLatestVitals u data now s).1 ∧
      ∀ s' : Store,
        (updateLatestVitals u data now s').1 u = (updateLatestVitals u data now s).1 u := by
  constructor
  · funext k
    by_cases hk : k = u
    · simp [updateLatestVitals, hk]
    · simp [updateLatestVitals, hk]
  · intro s'
    simp [updateLatestVitals]

/-! Section: Dashboard blood-pressure card and manual save
    (`src/app/(tabs)/vitals.tsx`)

The blood-pressure entry of `vitalCards` (lines 314-325) and
`handleSaveVital` (lines 157-182).  The component state `latestVitals` and
the call time are passed explicitly; the two repository writes become
explicit store/history transformations. -/

/-- JavaScript template-literal rendering of a number.  Agrees with
JavaScript for integral values — the only values the specified scenarios
exercise; a non-integral rational would render as a fraction rather than a
decimal. -/
def numToString (q : ℚ) : String := toString q

/-- The `latestValue` of the blood-pressure card: the systolic and
diastolic halves joined by a slash when `sys && dia` is truthy, the
dash placeholder otherwise.  The `&&` truthiness test fails when either
half is absent (`undefined`) or `0`. -/
def bpCardValue (sys dia : Option ℚ) : String :=
  match sys, dia with
  | some s, some d =>
      if s = 0 ∨ d = 0 then "--/--"
      else numToString s ++ "/" ++ numToString d
  | _, _ => "--/--"

/-- The `status` of the blood-pressure card:
`sys ? getVitalStatus('bloodPressure', sys, dia) : 'normal'`. -/
def bpCardStatus (sys dia : Option ℚ) : Status :=
  match sys with
  | some s => if s = 0 then Status.normal else getVitalStatus ("bloodPressure") s dia
  | none => Status.normal

/-- The object spread `{ ...base, ...data }` on two partial records: fields
present in `data` override those of `base`. -/
def spreadMerge (base data : PartialVital) : PartialVital :=
  { id := data.id <|> base.id
    userId := data.userId <|> base.userId
    date := data.date <|> base.date
    bloodPressureSystolic := data.bloodPressureSystolic <|> base.bloodPressureSystolic
    bloodPressureDiastolic := data.bloodPressureDiastolic <|> base.bloodPressureDiastolic
    bloodSugarFasting := data.bloodSugarFasting <|> base.bloodSugarFasting
    bloodSugarPostMeal := data.bloodSugarPostMeal <|> base.bloodSugarPostMeal
    heartRate := data.heartRate <|> base.heartRate
    pulseRate := data.pulseRate <|> base.pulseRate
    temperature := data.temperature <|> base.temperature
    oxygenSaturation := data.oxygenSaturation <|> base.oxygenSaturation
    respirationRate := data.respirationRate <|> base.respirationRate
    weightKg := data.weightKg <|> base.weightKg
    heightCm := data.heightCm <|> base.heightCm
    bmi := data.bmi <|> base.bmi
    steps := data.steps <|> base.steps
    activeCalories := data.activeCalories <|> base.activeCalories
    sleepHours := data.sleepHours <|> base.sleepHours
    sleepMinutes := data.sleepMinutes <|> base.sleepMinutes
    readinessScore := data.readinessScore <|> base.readinessScore
    stressLevel := data.stressLevel <|> base.stressLevel
    notes := data.notes <|> base.notes
    source := data.source <|> base.source }

/-- Embedding of `handleSaveVital` (`src/app/(tabs)/vitals.tsx` lines
157-182): merge the submission over the current `latestVitals` state, stamp
`date` with the call time and `source` with `'manual'`, then replace the
latest snapshot and append the same merged record to the history. -/
def handleSaveVital (uid : String) (latestVitals data : PartialVital)
    (nowIso : String) (store : Store) (history : List VitalDoc) :
    Store × List VitalDoc :=
  let mergedData : PartialVital :=
    { spreadMerge latestVitals data with
        date := some nowIso
        source := some ("manual") }
  ((updateLatestVitals uid mergedData nowIso store).1,
    history ++ [docOfData uid mergedData nowIso])

/-- The manual submission of the C8 scenario. -/
def bpSubmission : PartialVital :=
  { bloodPressureSystolic := some 150
    bloodPressureDiastolic := some 95 }

/-- C8 counterexample: a snapshot in which both halves are present but the
systolic half is `0` renders the placeholder, not `"0/95"`: the `&&`
truthiness guard treats a zero half like a missing one. -/
theorem bp_card_zero_cex :
    bpCardValue (some 0) (some 95) = "--/--" ∧
      bpCardValue (some 0) (some 95) ≠ "0/95" := by
  decide

/-- C8 (amended): the blood-pressure card renders `"{systolic}/{diastolic}"`
when both halves are present and nonzero and the dash placeholder when
either half is absent or zero; and after a manual submission of
`{bloodPressureSystolic: 150, bloodPressureDiastolic: 95}` the latest
snapshot's card shows `"150/95"` with status `critical`, and the history
gains exactly one new entry, whose `source` is `"manual"`. -/
theorem bp_card_and_manual_save :
    (∀ s d : ℚ, s ≠ 0 → d ≠ 0 →
      bpCardValue (some s) (some d) = numToString s ++ "/" ++ numToString d) ∧
    (∀ d, bpCardValue none d = "--/--") ∧
    (∀ s, bpCardValue s none = "--/--") ∧
    (∀ d, bpCardValue (some 0) d = "--/--") ∧
    (∀ s, bpCardValue s (some 0) = "--/--") ∧
    (∀ (uid : String) (latest : PartialVital) (now : String) (store : Store)
        (history : List VitalDoc),
      ∃ doc : VitalDoc,
        (handleSaveVital uid latest bpSubmission now store history).1 uid = some doc ∧
        bpCardValue doc.bloodPressureSystolic doc.bloodPressureDiastolic = "150/95" ∧
        bpCardStatus doc.bloodPressureSystolic doc.bloodPressureDiastolic =
          Status.critical ∧
        doc.source = "manual" ∧
        (handleSaveVital uid latest bpSubmission now store history).2 =
          history ++ [doc]) := by
  refine ⟨?_, ?_, ?_, ?_, ?_, ?_⟩
  · intro s d hs hd
    rw [bpCardValue]
    rw [if_neg]
    push_neg
    exact ⟨hs, hd⟩
  · intro d
    cases d <;> rfl
  · intro s
    cases s <;> rfl
  · intro d
    cases d <;> simp [bpCardValue]
  · intro s
    cases s <;> simp [bpCardValue]
  · intro uid latest now store history
    refine ⟨docOfData uid
      { spreadMerge latest bpSubmission with
          date := some now
          source := some ("manual") } now, ?_, ?_, ?_, ?_, ?_⟩
    · simp [handleSaveVital, updateLatestVitals]
    · show bpCardValue (some 150) (some 95) = "150/95"
      decide
    · show bpCardStatus (some 150) (some 95) = Status.critical
      decide
    · show jsStrOr (some ("manual")) ("manual") = "manual"
      decide
    · rfl

/-- Witness for `bp_card_and_manual_save` at the concrete nonzero pair
(150, 95). -/
theorem bp_card_and_manual_save_witness :
    ((150 : ℚ) ≠ 0) ∧ ((95 : ℚ) ≠ 0) ∧
      bpCardValue (some 150) (some 95) = numToString 150 ++ "/" ++ numToString 95 :=
  ⟨by norm_num, by norm_num,
    bp_card_and_manual_save.1 150 95 (by norm_num) (by norm_num)⟩

/-! Section: Extraction post-parse cleaning (`extractVitalsFromDocument`,
    `src/unnamed/part_001` lines 147-172)

Values of the parsed JSON extraction object are numbers, strings, or other
shapes (booleans, null, arrays, nested objects), modelled by `JsonValue`.
`JSON.parse` cannot produce non-finite numbers, so JavaScript numbers are
again rationals and `isNaN` is constantly false on the `num` case.  The
object is a key/value list in insertion order; keys of a parsed JSON object
are unique, so each assignment `cleanedData[key] = v` appends a fresh key. -/

/-- A value of the parsed extraction object, classified by `typeof`. -/
inductive JsonValue where
  | num (q : ℚ)
  | str (s : String)
  | other
deriving DecidableEq, Repr

/-- A value kept by the cleaning loop: a coerced/validated number, or the
verbatim `notes` string. -/
inductive CleanValue where
  | num (q : ℚ)
  | str (s : String)
deriving DecidableEq, Repr

/-- Decimal digits to a natural number, most significant first. -/
def digitsToNat (ds : List Char) : ℕ :=
  ds.foldl (fun acc c => 10 * acc + (c.toNat - '0'.toNat)) 0

/-- Model of the JavaScript builtin `parseFloat` on decimal-literal strings
(`none` is `NaN`): skip leading whitespace, an optional sign, integer
digits, an optional fraction, an optional exponent, ignoring any trailing
garbage; `NaN` when no digit is found.  The special strings accepted by the
builtin that denote non-finite values (`"Infinity"`) have no rational
counterpart and parse here only up to their numeric prefix. -/
def parseFloat (s : String) : Option ℚ :=
  let cs0 := s.data.dropWhile (fun c => c == ' ' || c == '\t' || c == '\n' || c == '\r')
  let signAndRest : ℚ × List Char :=
    match cs0 with
    | '-' :: rest => (-1, rest)
    | '+' :: rest => (1, rest)
    | _ => (1, cs0)
  let sign := signAndRest.1
  let cs1 := signAndRest.2
  let intDs := cs1.takeWhile Char.isDigit
  let cs2 := cs1.dropWhile Char.isDigit
  let fracAndRest : List Char × List Char :=
    match cs2 with
    | '.' :: rest => (rest.takeWhile Char.isDigit, rest.dropWhile Char.isDigit)
    | _ => ([], cs2)
  let fracDs := fracAndRest.1
  let cs3 := fracAndRest.2
  if intDs.isEmpty && fracDs.isEmpty then none
  else
    let mantissa : ℚ :=
      (digitsToNat intDs : ℚ) + (digitsToNat fracDs : ℚ) / (10 : ℚ) ^ fracDs.length
    let expDigits : Option (Bool × List Char) :=
      match cs3 with
      | 'e' :: rest | 'E' :: rest =>
          match rest with
          | '-' :: r2 => some (true, r2.takeWhile Char.isDigit)
          | '+' :: r2 => some (false, r2.takeWhile Char.isDigit)
          | r2 => some (false, r2.takeWhile Char.isDigit)
      | _ => none
    let expVal : ℤ :=
      match expDigits with
      | some (neg, ds) =>
          if ds.isEmpty then 0
          else if neg then -(digitsToNat ds : ℤ) else (digitsToNat ds : ℤ)
      | none => 0
    some (sign * mantissa * (10 : ℚ) ^ expVal)

/-- Embedding of the cleaning loop of `extractVitalsFromDocument`
(`src/unnamed/part_001` lines 158-169), in source branch order per entry:
a string-typed `notes` is kept verbatim; a number is kept when
`!isNaN(value) && value > 0`; any other string is coerced with `parseFloat`
and kept when `!isNaN(numValue) && numValue > 0`; every other shape is
dropped. -/
def cleanVitals : List (String × JsonValue) → List (String × CleanValue)
  | [] => []
  | (key, value) :: rest =>
    match value with
    | JsonValue.str s =>
        if key = ("notes") then (key, CleanValue.str s) :: cleanVitals rest
        else
          match parseFloat s with
          | some q =>
              if 0 < q then (key, CleanValue.num q) :: cleanVitals rest
              else cleanVitals rest
          | none => cleanVitals rest
    | JsonValue.num q =>
        if 0 < q then (key, CleanValue.num q) :: cleanVitals rest
        else cleanVitals rest
    | JsonValue.other => cleanVitals rest

/-- Modelled from the spec's cleaning rules, for comparison with the
source-derived `cleanVitals`: numeric values are kept only if finite
(automatic on ℚ) and strictly positive; the `notes` field is kept verbatim
exactly when it is a string; other string values are coerced to numeric via
parse-and-revalidate under the same strictly-positive rule; all other
shapes are dropped silently. -/
def cleanFieldSpec (key : String) (value : JsonValue) : Option CleanValue :=
  match value with
  | JsonValue.num q => if 0 < q then some (CleanValue.num q) else none
  | JsonValue.str s =>
      if key = ("notes") then some (CleanValue.str s)
      else (parseFloat s).bind fun q =>
        if 0 < q then some (CleanValue.num q) else none
  | JsonValue.other => none

/-- C4: the cleaning loop keeps exactly the fields characterised by the
spec's per-field rules (numbers iff strictly positive, strings by
parse-and-revalidate under the same rule, a string `notes` verbatim, other
shapes dropped); on the input `{"heartRate": "72", "oxygenSaturation": -5,
"notes": "ok"}` it yields `{heartRate: 72, notes: "ok"}`. -/
theorem extraction_cleaning :
    (∀ fields : List (String × JsonValue),
      cleanVitals fields =
        fields.filterMap fun kv =>
          (cleanFieldSpec kv.1 kv.2).map fun c => (kv.1, c)) ∧
    cleanVitals
        [(("heartRate"), JsonValue.str ("72")),
          (("oxygenSaturation"), JsonValue.num (-5)),
          (("notes"), JsonValue.str ("ok"))] =
      [(("heartRate"), CleanValue.num 72), (("notes"), CleanValue.str ("ok"))] := by
  constructor
  · intro fields
    induction fields with
    | nil => rfl
    | cons kv rest ih =>
      obtain ⟨k, v⟩ := kv
      cases v with
      | num q =>
          rw [cleanVitals]
          split_ifs with hq <;>
            simp [List.filterMap_cons, cleanFieldSpec, hq, ih]
      | str s =>
          rw [cleanVitals]
          by_cases hk : k = ("notes")
          · simp [hk, List.filterMap_cons, cleanFieldSpec, ih]
          · cases hp : parseFloat s with
            | none => simp [hk, hp, List.filterMap_cons, cleanFieldSpec, ih]
            | some q =>
                simp only [hp]
                split_ifs with hq <;>
                  simp [hk, hp, hq, List.filterMap_cons, cleanFieldSpec, ih]
      | other =>
          rw [cleanVitals]
          simp [List.filterMap_cons, cleanFieldSpec, ih]
  · simp +decide [cleanVitals, parseFloat, digitsToNat]

end HealthPath
